import Mathlib

/-!
Shallow embedding of the device-registry / command-queue core of
`src/server.js` (a small Express server with three in-memory maps:
`registeredDevices`, `deviceCommands`, `deviceStatus`).

JavaScript objects keyed by strings are modelled as association lists
(`List (String × β)`) with insertion-order preserving update (`setKey`):
assigning to an existing key replaces its value in place, assigning to a
fresh key appends it.  JS truthiness on the relevant values is modelled
explicitly: a missing body field is falsy (modelled as the empty string for
string fields), an empty string is falsy, and an array — even an empty
one — is truthy (so `if (deviceCommands[id])` is a key-presence test).

Timestamps (`new Date().toISOString()`) are modelled as an abstract `Nat`
clock value passed to each operation.
-/

namespace SukhServer

/-- Lookup of a key in an association list (models `obj[key]` on a JS
object, returning `none` when the property is absent). -/
def lookupKey {β : Type} : List (String × β) → String → Option β
  | [], _ => none
  | p :: rest, id => if p.1 = id then some p.2 else lookupKey rest id

/-- Assignment `obj[key] = v` on a JS object: replaces the value of an
existing key in place, otherwise appends the new key at the end
(JS objects preserve insertion order for string keys). -/
def setKey {β : Type} : List (String × β) → String → β → List (String × β)
  | [], id, v => [(id, v)]
  | p :: rest, id, v => if p.1 = id then (id, v) :: rest else p :: setKey rest id v

/-- A value of `registeredDevices[device_id]` (server.js lines 102-107). -/
structure DeviceRecord where
  registered_at : Nat
  last_seen : Nat
  status : String
  ip : String
deriving DecidableEq, Repr

/-- A value of `deviceStatus[device_id]` (server.js lines 136-142). -/
structure StatusRecord where
  status : String
  recording : Bool
  screen_recording : Bool
  last_updated : Nat
  ip : String
deriving DecidableEq, Repr

/-- The three in-memory stores of server.js (lines 55-57). -/
structure ServerState where
  registeredDevices : List (String × DeviceRecord)
  deviceCommands : List (String × List String)
  deviceStatus : List (String × StatusRecord)
deriving DecidableEq, Repr

/-- The state at process start: all three maps empty. -/
def initialState : ServerState := ⟨[], [], []⟩

/-- Response of POST /register_device. -/
inductive RegisterResult where
  | missingId
  | success (device_id : String)
deriving DecidableEq, Repr

/-- Response of POST /update_status. -/
inductive StatusResult where
  | missingId
  | updated (device_id : String) (timestamp : Nat)
deriving DecidableEq, Repr

/-- Response of GET /get_commands/:device_id. -/
inductive PollResult where
  | notRegistered
  | ok (commands : List String) (count : Nat) (timestamp : Nat)
deriving DecidableEq, Repr

/-- Response of POST /admin/send_command. -/
inductive SendResult where
  | missingFields
  | notRegistered
  | ok (pending_commands : Nat)
deriving DecidableEq, Repr

/-- Response of DELETE /admin/clear_commands/:device_id. -/
inductive ClearResult where
  | notFound
  | success
deriving DecidableEq, Repr

/-- POST /register_device (server.js lines 94-125).  `!device_id` is the
JS falsiness test on the body field, i.e. missing or empty string.  The
device record is overwritten unconditionally; the command queue is created
only when absent (`if (!deviceCommands[device_id])`, and an existing
array — even empty — is truthy). -/
def registerDevice (now : Nat) (ip : String) (device_id : String)
    (s : ServerState) : RegisterResult × ServerState :=
  if device_id = "" then
    (RegisterResult.missingId, s)
  else
    let dev : DeviceRecord :=
      { registered_at := now, last_seen := now, status := "active", ip := ip }
    let s1 := { s with registeredDevices := setKey s.registeredDevices device_id dev }
    let s2 :=
      match lookupKey s1.deviceCommands device_id with
      | none => { s1 with deviceCommands := setKey s1.deviceCommands device_id [] }
      | some _ => s1
    (RegisterResult.success device_id, s2)

/-- POST /update_status (server.js lines 128-161).  The destructuring
defaults `status = 'idle'`, `recording = false`, `screen_recording = false`
apply exactly when the body field is absent, modelled by `Option.getD`.
The status record is stored unconditionally; `last_seen` is refreshed only
when the device is registered. -/
def updateStatus (now : Nat) (ip : String) (device_id : String)
    (status? : Option String) (recording? : Option Bool)
    (screen_recording? : Option Bool) (s : ServerState) :
    StatusResult × ServerState :=
  if device_id = "" then
    (StatusResult.missingId, s)
  else
    let rec1 : StatusRecord :=
      { status := status?.getD "idle", recording := recording?.getD false,
        screen_recording := screen_recording?.getD false,
        last_updated := now, ip := ip }
    let s1 := { s with deviceStatus := setKey s.deviceStatus device_id rec1 }
    let s2 :=
      match lookupKey s1.registeredDevices device_id with
      | some dev =>
        { s1 with registeredDevices :=
            setKey s1.registeredDevices device_id { dev with last_seen := now } }
      | none => s1
    (StatusResult.updated device_id now, s2)

/-- GET /get_commands/:device_id (server.js lines 164-194).  404 when the
id is not a key of `registeredDevices`; otherwise refreshes `last_seen`,
reads `deviceCommands[device_id] || []`, resets the queue to `[]` and
returns the commands with their count. -/
def pollCommands (now : Nat) (device_id : String) (s : ServerState) :
    PollResult × ServerState :=
  match lookupKey s.registeredDevices device_id with
  | none => (PollResult.notRegistered, s)
  | some dev =>
    let s1 :=
      { s with registeredDevices :=
          setKey s.registeredDevices device_id { dev with last_seen := now } }
    let commands := (lookupKey s1.deviceCommands device_id).getD []
    let s2 := { s1 with deviceCommands := setKey s1.deviceCommands device_id [] }
    (PollResult.ok commands commands.length now, s2)

/-- POST /admin/send_command (server.js lines 497-529).  400 when either
body field is falsy (missing or empty), 404 when the id is not registered;
otherwise ensures a queue exists, pushes the command at the tail and
returns the new length. -/
def sendCommand (device_id command : String) (s : ServerState) :
    SendResult × ServerState :=
  if device_id = "" ∨ command = "" then
    (SendResult.missingFields, s)
  else
    match lookupKey s.registeredDevices device_id with
    | none => (SendResult.notRegistered, s)
    | some _ =>
      let queue := ((lookupKey s.deviceCommands device_id).getD []) ++ [command]
      (SendResult.ok queue.length,
        { s with deviceCommands := setKey s.deviceCommands device_id queue })

/-- DELETE /admin/clear_commands/:device_id (server.js lines 532-551).
The guard is `if (deviceCommands[device_id])`: key presence in
`deviceCommands` (an empty array is truthy), not a registry check. -/
def clearCommands (device_id : String) (s : ServerState) :
    ClearResult × ServerState :=
  match lookupKey s.deviceCommands device_id with
  | some _ =>
    (ClearResult.success,
      { s with deviceCommands := setKey s.deviceCommands device_id [] })
  | none => (ClearResult.notFound, s)

/-- One row of the GET /admin/devices response (server.js lines 354-363). -/
structure DeviceListEntry where
  device_id : String
  registered_at : Nat
  last_seen : Nat
  status : String
  recording : Bool
  screen_recording : Bool
  pending_commands : Nat
  ip : String
deriving DecidableEq, Repr

/-- GET /admin/devices (server.js lines 348-377): maps over the keys of
`registeredDevices`.  `statusInfo.status || 'unknown'` and
`deviceInfo.ip || 'unknown'` are JS truthiness: an absent record or an
empty string both yield `"unknown"`; `statusInfo.recording || false`
yields `false` for an absent record. -/
def listDevices (s : ServerState) : List DeviceListEntry :=
  s.registeredDevices.map (fun p =>
    let statusInfo := lookupKey s.deviceStatus p.1
    { device_id := p.1,
      registered_at := p.2.registered_at,
      last_seen := p.2.last_seen,
      status :=
        match statusInfo with
        | some st => if st.status = "" then "unknown" else st.status
        | none => "unknown",
      recording :=
        match statusInfo with
        | some st => st.recording
        | none => false,
      screen_recording :=
        match statusInfo with
        | some st => st.screen_recording
        | none => false,
      pending_commands := ((lookupKey s.deviceCommands p.1).getD []).length,
      ip := if p.2.ip = "" then "unknown" else p.2.ip })

/-- Formalisation of the join rule in claim C8's own words: each listed
entry takes its `status` from the device's status record, with `"unknown"`
only when no status record exists (and `false` for the recording flags in
that case).  To be compared with `listDevices`, which follows the code. -/
def listDevicesClaim (s : ServerState) : List DeviceListEntry :=
  s.registeredDevices.map (fun p =>
    { device_id := p.1,
      registered_at := p.2.registered_at,
      last_seen := p.2.last_seen,
      status :=
        match lookupKey s.deviceStatus p.1 with
        | some st => st.status
        | none => "unknown",
      recording :=
        match lookupKey s.deviceStatus p.1 with
        | some st => st.recording
        | none => false,
      screen_recording :=
        match lookupKey s.deviceStatus p.1 with
        | some st => st.screen_recording
        | none => false,
      pending_commands := ((lookupKey s.deviceCommands p.1).getD []).length,
      ip := p.2.ip })

/-- A client-visible operation on the server, with its clock value and
request fields. -/
inductive Op where
  | register (now : Nat) (ip : String) (device_id : String)
  | status (now : Nat) (ip : String) (device_id : String)
      (status? : Option String) (recording? : Option Bool)
      (screen_recording? : Option Bool)
  | poll (now : Nat) (device_id : String)
  | send (device_id command : String)
  | clear (device_id : String)
deriving DecidableEq, Repr

/-- State transition of one operation (the response is discarded). -/
def applyOp (s : ServerState) : Op → ServerState
  | Op.register now ip id => (registerDevice now ip id s).2
  | Op.status now ip id st? r? sr? => (updateStatus now ip id st? r? sr? s).2
  | Op.poll now id => (pollCommands now id s).2
  | Op.send id cmd => (sendCommand id cmd s).2
  | Op.clear id => (clearCommands id s).2

/-- Run a sequence of operations from the empty initial state. -/
def runOps (ops : List Op) : ServerState := ops.foldl applyOp initialState

/-- A state is reachable when some operation sequence from process start
produces it. -/
def Reachable (s : ServerState) : Prop := ∃ ops, runOps ops = s

/-- Whether an operation is a registration request for `id` (the only kind
of operation that can create a registry entry for `id`). -/
def registersId (id : String) : Op → Bool
  | Op.register _ _ did => did = id
  | _ => false

/-- An association list has no duplicate keys. -/
def NodupKeys {β : Type} (l : List (String × β)) : Prop := (l.map Prod.fst).Nodup

/-- The key sets of `registeredDevices` and `deviceCommands` coincide. -/
def KeysAligned (s : ServerState) : Prop :=
  ∀ id, (lookupKey s.registeredDevices id).isSome ↔
    (lookupKey s.deviceCommands id).isSome

/-- State invariant maintained by every operation: aligned key sets and no
duplicate keys in any store. -/
def Inv (s : ServerState) : Prop :=
  KeysAligned s ∧ NodupKeys s.registeredDevices ∧ NodupKeys s.deviceCommands ∧
    NodupKeys s.deviceStatus

theorem lookupKey_setKey {β : Type} (l : List (String × β)) (k j : String) (v : β) :
    lookupKey (setKey l k v) j = if k = j then some v else lookupKey l j := by
  induction l with
  | nil => simp [setKey, lookupKey]
  | cons p rest ih =>
    by_cases hp : p.1 = k
    · by_cases hj : k = j
      · simp [setKey, lookupKey, hp, hj]
      · simp [setKey, lookupKey, hp, hj]
    · by_cases hpj : p.1 = j
      · have hkj : ¬ k = j := fun h => hp (hpj.trans h.symm)
        have hjk : ¬ j = k := fun h => hkj h.symm
        simp [setKey, lookupKey, hp, hpj, hkj, hjk]
      · simp [setKey, lookupKey, hp, hpj, ih]

theorem keys_setKey_of_isSome {β : Type} (l : List (String × β)) (k : String)
    (v : β) (h : (lookupKey l k).isSome) :
    (setKey l k v).map Prod.fst = l.map Prod.fst := by
  induction l with
  | nil => simp [lookupKey] at h
  | cons p rest ih =>
    by_cases hp : p.1 = k
    · simp [setKey, hp]
    · simp only [lookupKey, hp, if_false] at h
      simp [setKey, hp, ih h]

theorem keys_setKey_of_none {β : Type} (l : List (String × β)) (k : String)
    (v : β) (h : lookupKey l k = none) :
    (setKey l k v).map Prod.fst = l.map Prod.fst ++ [k] := by
  induction l with
  | nil => simp [setKey]
  | cons p rest ih =>
    by_cases hp : p.1 = k
    · simp [lookupKey, hp] at h
    · simp only [lookupKey, hp, if_false] at h
      simp [setKey, hp, ih h]

theorem lookupKey_eq_none_iff {β : Type} (l : List (String × β)) (k : String) :
    lookupKey l k = none ↔ k ∉ l.map Prod.fst := by
  induction l with
  | nil => simp [lookupKey]
  | cons p rest ih =>
    by_cases hp : p.1 = k
    · simp [lookupKey, hp]
    · have hp' : ¬ k = p.1 := fun h => hp h.symm
      simp [lookupKey, hp, hp', ih]

theorem nodupKeys_setKey {β : Type} (l : List (String × β)) (k : String) (v : β)
    (h : NodupKeys l) : NodupKeys (setKey l k v) := by
  cases hk : lookupKey l k with
  | some w =>
    unfold NodupKeys
    rw [keys_setKey_of_isSome l k v (by simp [hk])]
    exact h
  | none =>
    unfold NodupKeys
    rw [keys_setKey_of_none l k v hk]
    have hmem : k ∉ l.map Prod.fst := (lookupKey_eq_none_iff l k).mp hk
    simp only [List.nodup_append, List.nodup_singleton, true_and]
    refine ⟨h, fun a ha hak => hmem ?_⟩
    simp only [List.mem_singleton] at hak
    rwa [hak] at ha

theorem lookupKey_of_mem {β : Type} (l : List (String × β)) (p : String × β)
    (h : NodupKeys l) (hm : p ∈ l) : lookupKey l p.1 = some p.2 := by
  induction l with
  | nil => simp at hm
  | cons q rest ih =>
    have h' : q.1 ∉ rest.map Prod.fst ∧ NodupKeys rest := by
      simpa [NodupKeys, List.nodup_cons] using h
    rcases List.mem_cons.mp hm with he | hm2
    · subst he; simp [lookupKey]
    · have hq : ¬ q.1 = p.1 := by
        intro he
        apply h'.1
        rw [he]
        exact List.mem_map_of_mem Prod.fst hm2
      simpa [lookupKey, hq] using ih h'.2 hm2

theorem inv_initialState : Inv initialState := by
  refine ⟨fun id => ?_, ?_, ?_, ?_⟩ <;>
    simp [initialState, lookupKey, NodupKeys]

theorem inv_applyOp (s : ServerState) (op : Op) (h : Inv s) :
    Inv (applyOp s op) := by
  obtain ⟨hal, hnr, hnc, hns⟩ := h
  cases op with
  | register now ip id =>
    by_cases hid : id = ""
    · simpa [applyOp, registerDevice, hid] using ⟨hal, hnr, hnc, hns⟩
    · cases hc : lookupKey s.deviceCommands id with
      | none =>
        have hstate : applyOp s (Op.register now ip id) =
            { s with
                registeredDevices := setKey s.registeredDevices id
                  { registered_at := now, last_seen := now, status := "active",
                    ip := ip },
                deviceCommands := setKey s.deviceCommands id [] } := by
          simp [applyOp, registerDevice, hid, hc]
        rw [hstate]
        refine ⟨fun j => ?_, nodupKeys_setKey _ _ _ hnr,
          nodupKeys_setKey _ _ _ hnc, hns⟩
        by_cases hj : id = j <;> simp [lookupKey_setKey, hj, hal j]
      | some q =>
        have hstate : applyOp s (Op.register now ip id) =
            { s with
                registeredDevices := setKey s.registeredDevices id
                  { registered_at := now, last_seen := now, status := "active",
                    ip := ip } } := by
          simp [applyOp, registerDevice, hid, hc]
        rw [hstate]
        refine ⟨fun j => ?_, nodupKeys_setKey _ _ _ hnr, hnc, hns⟩
        by_cases hj : id = j
        · subst hj; simp [lookupKey_setKey, hc]
        · simp [lookupKey_setKey, hj, hal j]
  | status now ip id st? r? sr? =>
    by_cases hid : id = ""
    · simpa [applyOp, updateStatus, hid] using ⟨hal, hnr, hnc, hns⟩
    · cases hr : lookupKey s.registeredDevices id with
      | none =>
        have hstate : applyOp s (Op.status now ip id st? r? sr?) =
            { s with
                deviceStatus := setKey s.deviceStatus id
                  { status := st?.getD "idle", recording := r?.getD false,
                    screen_recording := sr?.getD false, last_updated := now,
                    ip := ip } } := by
          simp [applyOp, updateStatus, hid, hr]
        rw [hstate]
        exact ⟨hal, hnr, hnc, nodupKeys_setKey _ _ _ hns⟩
      | some dev =>
        have hstate : applyOp s (Op.status now ip id st? r? sr?) =
            { s with
                registeredDevices := setKey s.registeredDevices id
                  { dev with last_seen := now },
                deviceStatus := setKey s.deviceStatus id
                  { status := st?.getD "idle", recording := r?.getD false,
                    screen_recording := sr?.getD false, last_updated := now,
                    ip := ip } } := by
          simp [applyOp, updateStatus, hid, hr]
        rw [hstate]
        refine ⟨fun j => ?_, nodupKeys_setKey _ _ _ hnr, hnc,
          nodupKeys_setKey _ _ _ hns⟩
        by_cases hj : id = j
        · subst hj
          have h2 : (lookupKey s.deviceCommands id).isSome :=
            (hal id).mp (by simp [hr])
          simp [lookupKey_setKey, h2]
        · simp [lookupKey_setKey, hj, hal j]
  | poll now id =>
    cases hr : lookupKey s.registeredDevices id with
    | none => simpa [applyOp, pollCommands, hr] using ⟨hal, hnr, hnc, hns⟩
    | some dev =>
      have hstate : applyOp s (Op.poll now id) =
          { s with
              registeredDevices := setKey s.registeredDevices id
                { dev with last_seen := now },
              deviceCommands := setKey s.deviceCommands id [] } := by
        simp [applyOp, pollCommands, hr]
      rw [hstate]
      refine ⟨fun j => ?_, nodupKeys_setKey _ _ _ hnr,
        nodupKeys_setKey _ _ _ hnc, hns⟩
      by_cases hj : id = j <;> simp [lookupKey_setKey, hj, hal j]
  | send id cmd =>
    by_cases hv : id = "" ∨ cmd = ""
    · simpa [applyOp, sendCommand, hv] using ⟨hal, hnr, hnc, hns⟩
    · cases hr : lookupKey s.registeredDevices id with
      | none => simpa [applyOp, sendCommand, hv, hr] using ⟨hal, hnr, hnc, hns⟩
      | some dev =>
        have hstate : applyOp s (Op.send id cmd) =
            { s with
                deviceCommands := setKey s.deviceCommands id
                  (((lookupKey s.deviceCommands id).getD []) ++ [cmd]) } := by
          simp [applyOp, sendCommand, hv, hr]
        rw [hstate]
        refine ⟨fun j => ?_, hnr, nodupKeys_setKey _ _ _ hnc, hns⟩
        by_cases hj : id = j
        · subst hj; simp [lookupKey_setKey, hr]
        · simp [lookupKey_setKey, hj, hal j]
  | clear id =>
    cases hc : lookupKey s.deviceCommands id with
    | none => simpa [applyOp, clearCommands, hc] using ⟨hal, hnr, hnc, hns⟩
    | some q =>
      have hstate : applyOp s (Op.clear id) =
          { s with deviceCommands := setKey s.deviceCommands id [] } := by
        simp [applyOp, clearCommands, hc]
      rw [hstate]
      refine ⟨fun j => ?_, hnr, nodupKeys_setKey _ _ _ hnc, hns⟩
      by_cases hj : id = j
      · subst hj
        have h2 : (lookupKey s.registeredDevices id).isSome :=
          (hal id).mpr (by simp [hc])
        simp [lookupKey_setKey, h2]
      · simp [lookupKey_setKey, hj, hal j]

theorem inv_foldl (ops : List Op) :
    ∀ s : ServerState, Inv s → Inv (ops.foldl applyOp s) := by
  induction ops with
  | nil => intro s h; simpa using h
  | cons op rest ih => intro s h; exact ih _ (inv_applyOp s op h)

theorem reachable_inv (s : ServerState) (h : Reachable s) : Inv s := by
  obtain ⟨ops, rfl⟩ := h
  exact inv_foldl ops initialState inv_initialState

theorem notRegistered_applyOp (s : ServerState) (op : Op) (id : String)
    (hop : registersId id op = false)
    (h : lookupKey s.registeredDevices id = none) :
    lookupKey (applyOp s op).registeredDevices id = none := by
  cases op with
  | register now ip did =>
    have hne : ¬ did = id := by simpa [registersId] using hop
    by_cases hd : did = ""
    · simpa [applyOp, registerDevice, hd] using h
    · cases hc : lookupKey s.deviceCommands did <;>
        simp [applyOp, registerDevice, hd, hc, lookupKey_setKey, hne, h]
  | status now ip did st? r? sr? =>
    by_cases hd : did = ""
    · simpa [applyOp, updateStatus, hd] using h
    · cases hr : lookupKey s.registeredDevices did with
      | none => simpa [applyOp, updateStatus, hd, hr] using h
      | some dev =>
        have hne : ¬ did = id := fun he => by rw [he] at hr; rw [h] at hr; exact Option.noConfusion hr
        simp [applyOp, updateStatus, hd, hr, lookupKey_setKey, hne, h]
  | poll now did =>
    cases hr : lookupKey s.registeredDevices did with
    | none => simpa [applyOp, pollCommands, hr] using h
    | some dev =>
      have hne : ¬ did = id := fun he => by rw [he] at hr; rw [h] at hr; exact Option.noConfusion hr
      simp [applyOp, pollCommands, hr, lookupKey_setKey, hne, h]
  | send did cmd =>
    by_cases hv : did = "" ∨ cmd = ""
    · simpa [applyOp, sendCommand, hv] using h
    · cases hr : lookupKey s.registeredDevices did <;>
        simpa [applyOp, sendCommand, hv, hr] using h
  | clear did =>
    cases hc : lookupKey s.deviceCommands did <;>
      simpa [applyOp, clearCommands, hc] using h

theorem notRegistered_foldl (ops : List Op) (id : String) :
    ∀ s : ServerState, (∀ op ∈ ops, registersId id op = false) →
      lookupKey s.registeredDevices id = none →
      lookupKey (ops.foldl applyOp s).registeredDevices id = none := by
  induction ops with
  | nil => intro s _ hs; simpa using hs
  | cons op rest ih =>
    intro s h hs
    simp only [List.foldl_cons]
    exact ih _ (fun o ho => h o (List.mem_cons_of_mem _ ho))
      (notRegistered_applyOp s op id (h op (List.mem_cons_self _ _)) hs)

theorem notRegistered_runOps (ops : List Op) (id : String)
    (h : ∀ op ∈ ops, registersId id op = false) :
    lookupKey (runOps ops).registeredDevices id = none :=
  notRegistered_foldl ops id initialState h (by simp [initialState, lookupKey])

theorem mem_of_lookupKey {β : Type} (l : List (String × β)) (k : String) (v : β)
    (h : lookupKey l k = some v) : (k, v) ∈ l := by
  induction l with
  | nil => simp [lookupKey] at h
  | cons p rest ih =>
    obtain ⟨a, b⟩ := p
    by_cases hp : a = k
    · subst hp
      simp [lookupKey] at h
      subst h
      exact List.mem_cons_self _ _
    · simp only [lookupKey, hp, if_false] at h
      exact List.mem_cons_of_mem _ (ih h)

/-- C1: for a registered device id, `pollCommands` returns exactly the
device's queued command list (the list maintained in FIFO enqueue order)
together with its length as `count`, resets the queue to empty, and an
immediately subsequent `pollCommands` with no intervening enqueue returns
an empty command list with count 0 — so no command is returned by two
different drains. -/
theorem C1_pollCommands_drain (now now2 : Nat) (id : String) (s : ServerState)
    (dev : DeviceRecord) (h : lookupKey s.registeredDevices id = some dev) :
    (pollCommands now id s).1 =
      PollResult.ok ((lookupKey s.deviceCommands id).getD [])
        ((lookupKey s.deviceCommands id).getD []).length now ∧
    lookupKey (pollCommands now id s).2.deviceCommands id = some [] ∧
    (pollCommands now2 id (pollCommands now id s).2).1 =
      PollResult.ok [] 0 now2 := by
  refine ⟨?_, ?_, ?_⟩
  · simp [pollCommands, h]
  · simp [pollCommands, h, lookupKey_setKey]
  · simp [pollCommands, h, lookupKey_setKey]

/-- C1 witness at a concrete reachable state. -/
theorem C1_witness :
    (pollCommands 1 "dev1"
        (runOps [Op.register 0 "ip" "dev1", Op.send "dev1" "REBOOT"])).1 =
      PollResult.ok
        ((lookupKey (runOps [Op.register 0 "ip" "dev1",
            Op.send "dev1" "REBOOT"]).deviceCommands "dev1").getD [])
        ((lookupKey (runOps [Op.register 0 "ip" "dev1",
            Op.send "dev1" "REBOOT"]).deviceCommands "dev1").getD []).length 1 ∧
    lookupKey (pollCommands 1 "dev1"
        (runOps [Op.register 0 "ip" "dev1",
          Op.send "dev1" "REBOOT"])).2.deviceCommands "dev1" = some [] ∧
    (pollCommands 2 "dev1" (pollCommands 1 "dev1"
        (runOps [Op.register 0 "ip" "dev1", Op.send "dev1" "REBOOT"])).2).1 =
      PollResult.ok [] 0 2 :=
  C1_pollCommands_drain 1 2 "dev1"
    (runOps [Op.register 0 "ip" "dev1", Op.send "dev1" "REBOOT"])
    ⟨0, 0, "active", "ip"⟩ (by decide)

/-- C2: for a device id that no operation in the history ever tried to
register, `pollCommands` fails with DeviceNotFound (HTTP 404) and leaves
all three stores untouched. -/
theorem C2_pollCommands_neverRegistered (ops : List Op) (id : String)
    (now : Nat) (h : ∀ op ∈ ops, registersId id op = false) :
    pollCommands now id (runOps ops) = (PollResult.notRegistered, runOps ops) := by
  have hn := notRegistered_runOps ops id h
  simp [pollCommands, hn]

/-- C2 witness at a concrete history that never registers "ghost". -/
theorem C2_witness :
    pollCommands 7 "ghost" (runOps [Op.register 0 "ip" "dev1"]) =
      (PollResult.notRegistered, runOps [Op.register 0 "ip" "dev1"]) :=
  C2_pollCommands_neverRegistered [Op.register 0 "ip" "dev1"] "ghost" 7
    (by decide)

/-- C3: `sendCommand` fails with InvalidInput (HTTP 400) when either field
is empty, with DeviceNotFound (HTTP 404) when the id is not registered,
and otherwise appends the command at the tail of the device's queue (no
deduplication) and returns the new queue length as the pending count. -/
theorem C3_sendCommand_spec (s : ServerState) (id cmd : String) :
    ((id = "" ∨ cmd = "") →
      sendCommand id cmd s = (SendResult.missingFields, s)) ∧
    (¬ (id = "" ∨ cmd = "") → lookupKey s.registeredDevices id = none →
      sendCommand id cmd s = (SendResult.notRegistered, s)) ∧
    (∀ dev, ¬ (id = "" ∨ cmd = "") →
      lookupKey s.registeredDevices id = some dev →
      sendCommand id cmd s =
        (SendResult.ok (((lookupKey s.deviceCommands id).getD []).length + 1),
          { s with deviceCommands :=
                     setKey s.deviceCommands id
                       (((lookupKey s.deviceCommands id).getD []) ++ [cmd]) })) := by
  refine ⟨fun hv => by simp [sendCommand, hv],
    fun hv hr => by simp [sendCommand, hv, hr],
    fun dev hv hr => by simp [sendCommand, hv, hr]⟩

/-- C3 witness: enqueue onto a queue already holding one command. -/
theorem C3_witness :
    sendCommand "dev1" "B"
        (runOps [Op.register 0 "ip" "dev1", Op.send "dev1" "A"]) =
      (SendResult.ok
        (((lookupKey (runOps [Op.register 0 "ip" "dev1",
            Op.send "dev1" "A"]).deviceCommands "dev1").getD []).length + 1),
        { runOps [Op.register 0 "ip" "dev1", Op.send "dev1" "A"] with
            deviceCommands := setKey
              (runOps [Op.register 0 "ip" "dev1",
                Op.send "dev1" "A"]).deviceCommands "dev1"
              (((lookupKey (runOps [Op.register 0 "ip" "dev1",
                  Op.send "dev1" "A"]).deviceCommands "dev1").getD []) ++ ["B"]) }) :=
  (C3_sendCommand_spec
      (runOps [Op.register 0 "ip" "dev1", Op.send "dev1" "A"]) "dev1" "B").2.2
    ⟨0, 0, "active", "ip"⟩ (by decide) (by decide)

/-- C4: re-registering an already-registered id succeeds, leaves the
pending command queue and the status store exactly as they were, and
overwrites the device record with fresh registered_at and last_seen. -/
theorem C4_reregister (now : Nat) (ip id : String) (s : ServerState)
    (dev : DeviceRecord) (hs : Reachable s)
    (hreg : lookupKey s.registeredDevices id = some dev) (hid : ¬ id = "") :
    (registerDevice now ip id s).1 = RegisterResult.success id ∧
    (registerDevice now ip id s).2.deviceCommands = s.deviceCommands ∧
    (registerDevice now ip id s).2.deviceStatus = s.deviceStatus ∧
    lookupKey (registerDevice now ip id s).2.registeredDevices id =
      some { registered_at := now, last_seen := now, status := "active",
             ip := ip } := by
  obtain ⟨hal, _, _, _⟩ := reachable_inv s hs
  have hq : (lookupKey s.deviceCommands id).isSome := (hal id).mp (by simp [hreg])
  obtain ⟨q, hq2⟩ := Option.isSome_iff_exists.mp hq
  refine ⟨?_, ?_, ?_, ?_⟩ <;> simp [registerDevice, hid, hq2, lookupKey_setKey]

/-- C4 witness: re-register "dev1" at time 5 in a reachable state where it
holds one pending command. -/
theorem C4_witness :
    (registerDevice 5 "ip2" "dev1"
        (runOps [Op.register 0 "ip" "dev1", Op.send "dev1" "A"])).1 =
      RegisterResult.success "dev1" ∧
    (registerDevice 5 "ip2" "dev1"
        (runOps [Op.register 0 "ip" "dev1",
          Op.send "dev1" "A"])).2.deviceCommands =
      (runOps [Op.register 0 "ip" "dev1", Op.send "dev1" "A"]).deviceCommands ∧
    (registerDevice 5 "ip2" "dev1"
        (runOps [Op.register 0 "ip" "dev1",
          Op.send "dev1" "A"])).2.deviceStatus =
      (runOps [Op.register 0 "ip" "dev1", Op.send "dev1" "A"]).deviceStatus ∧
    lookupKey (registerDevice 5 "ip2" "dev1"
        (runOps [Op.register 0 "ip" "dev1",
          Op.send "dev1" "A"])).2.registeredDevices "dev1" =
      some { registered_at := 5, last_seen := 5, status := "active",
             ip := "ip2" } :=
  C4_reregister 5 "ip2" "dev1"
    (runOps [Op.register 0 "ip" "dev1", Op.send "dev1" "A"])
    ⟨0, 0, "active", "ip"⟩
    ⟨[Op.register 0 "ip" "dev1", Op.send "dev1" "A"], rfl⟩
    (by decide) (by decide)

/-- C5 counterexample: in the reachable state where "dev1" is registered
with one queued command, re-registering "dev1" and then polling returns
the old command with count 1, not an empty list with count 0. -/
theorem C5_counterexample :
    (pollCommands 3 "dev1"
        (registerDevice 2 "ip" "dev1"
          (runOps [Op.register 0 "ip" "dev1", Op.send "dev1" "CMD"])).2).1 =
      PollResult.ok ["CMD"] 1 3 ∧
    ¬ (pollCommands 3 "dev1"
        (registerDevice 2 "ip" "dev1"
          (runOps [Op.register 0 "ip" "dev1", Op.send "dev1" "CMD"])).2).1 =
      PollResult.ok [] 0 3 := by
  decide

/-- C5 amended: registerDevice on a valid id immediately followed by
pollCommands never fails with DeviceNotFound, and it returns an empty
command list with count 0 whenever the device's pending queue was empty
before the registration (in particular whenever the id was not already
registered); a non-empty pre-existing queue survives re-registration and
is what the poll returns. -/
theorem C5_amended_register_then_poll (now1 now2 : Nat) (ip id : String)
    (s : ServerState) (hid : ¬ id = "") :
    ¬ (pollCommands now2 id (registerDevice now1 ip id s).2).1 =
      PollResult.notRegistered ∧
    ((lookupKey s.deviceCommands id).getD [] = [] →
      (pollCommands now2 id (registerDevice now1 ip id s).2).1 =
        PollResult.ok [] 0 now2) := by
  cases hc : lookupKey s.deviceCommands id with
  | none =>
    constructor
    · simp [registerDevice, pollCommands, hid, hc, lookupKey_setKey]
    · intro _
      simp [registerDevice, pollCommands, hid, hc, lookupKey_setKey]
  | some q =>
    constructor
    · simp [registerDevice, pollCommands, hid, hc, lookupKey_setKey]
    · intro hq
      simp only [hc, Option.getD_some] at hq
      simp [registerDevice, pollCommands, hid, hc, lookupKey_setKey, hq]

/-- C5 amended witness: fresh registration then poll from the empty
state. -/
theorem C5_witness :
    ¬ (pollCommands 1 "dev9" (registerDevice 0 "ip" "dev9" initialState).2).1 =
      PollResult.notRegistered ∧
    ((lookupKey initialState.deviceCommands "dev9").getD [] = [] →
      (pollCommands 1 "dev9" (registerDevice 0 "ip" "dev9" initialState).2).1 =
        PollResult.ok [] 0 1) :=
  C5_amended_register_then_poll 0 1 "ip" "dev9" initialState (by decide)

/-- C6 counterexample: registering "dev1" at time 0 sets registered_at to
0, but a later registerDevice call on the same id at time 5 overwrites
registered_at to 5 — so registered_at is mutated by a subsequent
operation. -/
theorem C6_counterexample :
    (lookupKey (runOps [Op.register 0 "ip" "dev1"]).registeredDevices
        "dev1").map DeviceRecord.registered_at = some 0 ∧
    (lookupKey (runOps [Op.register 0 "ip" "dev1",
        Op.register 5 "ip" "dev1"]).registeredDevices "dev1").map
      DeviceRecord.registered_at = some 5 := by
  decide

/-- C6 amended: registered_at is set to the current time by every
successful registerDevice call — so a later re-registration of the same id
overwrites it — and no operation other than a registerDevice for that id
ever changes it. -/
theorem C6_amended_registeredAt (s : ServerState) (id : String) :
    (∀ now ip, ¬ id = "" →
      (lookupKey (registerDevice now ip id s).2.registeredDevices id).map
        DeviceRecord.registered_at = some now) ∧
    (∀ op, registersId id op = false →
      (lookupKey (applyOp s op).registeredDevices id).map
        DeviceRecord.registered_at =
      (lookupKey s.registeredDevices id).map DeviceRecord.registered_at) := by
  constructor
  · intro now ip hid
    cases hc : lookupKey s.deviceCommands id <;>
      simp [registerDevice, hid, hc, lookupKey_setKey]
  · intro op hop
    cases op with
    | register now ip did =>
      have hne : ¬ did = id := by simpa [registersId] using hop
      by_cases hd : did = ""
      · simp [applyOp, registerDevice, hd]
      · cases hc : lookupKey s.deviceCommands did <;>
          simp [applyOp, registerDevice, hd, hc, lookupKey_setKey, hne]
    | status now ip did st? r? sr? =>
      by_cases hd : did = ""
      · simp [applyOp, updateStatus, hd]
      · cases hr : lookupKey s.registeredDevices did with
        | none => simp [applyOp, updateStatus, hd, hr]
        | some dev =>
          by_cases hne : did = id
          · subst hne
            simp [applyOp, updateStatus, hd, hr, lookupKey_setKey]
          · simp [applyOp, updateStatus, hd, hr, lookupKey_setKey, hne]
    | poll now did =>
      cases hr : lookupKey s.registeredDevices did with
      | none => simp [applyOp, pollCommands, hr]
      | some dev =>
        by_cases hne : did = id
        · subst hne
          simp [applyOp, pollCommands, hr, lookupKey_setKey]
        · simp [applyOp, pollCommands, hr, lookupKey_setKey, hne]
    | send did cmd =>
      by_cases hv : did = "" ∨ cmd = ""
      · simp [applyOp, sendCommand, hv]
      · cases hr : lookupKey s.registeredDevices did <;>
          simp [applyOp, sendCommand, hv, hr]
    | clear did =>
      cases hc : lookupKey s.deviceCommands did <;>
        simp [applyOp, clearCommands, hc]

/-- C6 amended witness: re-registration stamps the new time, and a status
update for another device leaves registered_at alone. -/
theorem C6_witness :
    (∀ now ip, ¬ "dev1" = "" →
      (lookupKey (registerDevice now ip "dev1"
          (runOps [Op.register 0 "ip" "dev1"])).2.registeredDevices
        "dev1").map DeviceRecord.registered_at = some now) ∧
    (∀ op, registersId "dev1" op = false →
      (lookupKey (applyOp (runOps [Op.register 0 "ip" "dev1"])
          op).registeredDevices "dev1").map DeviceRecord.registered_at =
      (lookupKey (runOps [Op.register 0 "ip" "dev1"]).registeredDevices
        "dev1").map DeviceRecord.registered_at) :=
  C6_amended_registeredAt (runOps [Op.register 0 "ip" "dev1"]) "dev1"

/-- C7: updateStatus with a non-empty id always succeeds, stores the
status tuple with the current timestamp and source ip regardless of
registration, applying defaults idle/false/false for omitted fields; it
never creates or removes a registry entry, and it refreshes last_seen
exactly when the id is already registered. -/
theorem C7_updateStatus_spec (now : Nat) (ip id : String)
    (st? : Option String) (r? sr? : Option Bool) (s : ServerState)
    (hid : ¬ id = "") :
    (updateStatus now ip id st? r? sr? s).1 = StatusResult.updated id now ∧
    lookupKey (updateStatus now ip id st? r? sr? s).2.deviceStatus id =
      some { status := st?.getD "idle", recording := r?.getD false,
             screen_recording := sr?.getD false, last_updated := now,
             ip := ip } ∧
    (∀ j, (lookupKey (updateStatus now ip id st? r?
        sr? s).2.registeredDevices j).isSome ↔
      (lookupKey s.registeredDevices j).isSome) ∧
    (∀ dev, lookupKey s.registeredDevices id = some dev →
      lookupKey (updateStatus now ip id st? r? sr? s).2.registeredDevices id =
        some { dev with last_seen := now }) ∧
    (lookupKey s.registeredDevices id = none →
      (updateStatus now ip id st? r? sr? s).2.registeredDevices =
        s.registeredDevices) := by
  cases hr : lookupKey s.registeredDevices id with
  | none =>
    refine ⟨by simp [updateStatus, hid, hr],
      by simp [updateStatus, hid, hr, lookupKey_setKey],
      fun j => by simp [updateStatus, hid, hr],
      fun dev hdev => by simp [hr] at hdev,
      fun _ => by simp [updateStatus, hid, hr]⟩
  | some dev0 =>
    refine ⟨by simp [updateStatus, hid, hr],
      by simp [updateStatus, hid, hr, lookupKey_setKey],
      fun j => ?_, fun dev hdev => ?_,
      fun hnone => by simp [hr] at hnone⟩
    · by_cases hj : id = j
      · subst hj
        simp [updateStatus, hid, hr, lookupKey_setKey]
      · simp [updateStatus, hid, hr, lookupKey_setKey, hj]
    · obtain rfl := Option.some.inj hdev
      simp [updateStatus, hid, hr, lookupKey_setKey]

/-- C7 witness: status update for an unregistered id with an omitted
status field and an explicit recording flag. -/
theorem C7_witness :
    (updateStatus 4 "ip3" "ghost2" none (some true) none initialState).1 =
      StatusResult.updated "ghost2" 4 ∧
    lookupKey (updateStatus 4 "ip3" "ghost2" none (some true) none
        initialState).2.deviceStatus "ghost2" =
      some { status := (none : Option String).getD "idle",
             recording := (some true).getD false,
             screen_recording := (none : Option Bool).getD false,
             last_updated := 4, ip := "ip3" } ∧
    (∀ j, (lookupKey (updateStatus 4 "ip3" "ghost2" none (some true) none
        initialState).2.registeredDevices j).isSome ↔
      (lookupKey initialState.registeredDevices j).isSome) ∧
    (∀ dev, lookupKey initialState.registeredDevices "ghost2" = some dev →
      lookupKey (updateStatus 4 "ip3" "ghost2" none (some true) none
          initialState).2.registeredDevices "ghost2" =
        some { dev with last_seen := 4 }) ∧
    (lookupKey initialState.registeredDevices "ghost2" = none →
      (updateStatus 4 "ip3" "ghost2" none (some true) none
          initialState).2.registeredDevices =
        initialState.registeredDevices) :=
  C7_updateStatus_spec 4 "ip3" "ghost2" none (some true) none initialState
    (by decide)

/-- C8 counterexample: in the reachable state where "d1" is registered and
then reports an empty status string, a status record for "d1" exists with
status "", yet listDevices reports "unknown" for "d1" — so the listing
does not use the status record's status whenever the record exists, and it
differs from the claim's join rule `listDevicesClaim`. -/
theorem C8_counterexample :
    (lookupKey (runOps [Op.register 0 "ip" "d1",
        Op.status 1 "ip2" "d1" (some "") none none]).deviceStatus "d1").map
      StatusRecord.status = some "" ∧
    (listDevices (runOps [Op.register 0 "ip" "d1",
        Op.status 1 "ip2" "d1" (some "") none none])).map
      DeviceListEntry.status = ["unknown"] ∧
    ¬ listDevices (runOps [Op.register 0 "ip" "d1",
        Op.status 1 "ip2" "d1" (some "") none none]) =
      listDevicesClaim (runOps [Op.register 0 "ip" "d1",
        Op.status 1 "ip2" "d1" (some "") none none]) := by
  decide

/-- C8 amended: listDevices produces exactly one record per registered
device (its ids are the registry's keys, without duplicates in any
reachable state), joining each device's registry fields with its status
record and current pending-command count, where an empty stored status
string — like an absent status record — is reported as "unknown" (the
flags default to false only when the record is absent), and an empty
stored ip is likewise reported as "unknown"; a status record for a
never-registered id does not appear. -/
theorem C8_amended_listDevices (s : ServerState) (hs : Reachable s) :
    (listDevices s).map DeviceListEntry.device_id =
      s.registeredDevices.map Prod.fst ∧
    ((listDevices s).map DeviceListEntry.device_id).Nodup ∧
    (∀ id, lookupKey s.registeredDevices id = none →
      ∀ e ∈ listDevices s, ¬ e.device_id = id) ∧
    (∀ id dev, lookupKey s.registeredDevices id = some dev →
      ∃ e ∈ listDevices s, e.device_id = id ∧
        e.registered_at = dev.registered_at ∧
        e.last_seen = dev.last_seen ∧
        e.status = (match lookupKey s.deviceStatus id with
                    | some st => if st.status = "" then "unknown" else st.status
                    | none => "unknown") ∧
        e.recording = (match lookupKey s.deviceStatus id with
                       | some st => st.recording
                       | none => false) ∧
        e.screen_recording = (match lookupKey s.deviceStatus id with
                              | some st => st.screen_recording
                              | none => false) ∧
        e.pending_commands = ((lookupKey s.deviceCommands id).getD []).length ∧
        e.ip = (if dev.ip = "" then "unknown" else dev.ip)) := by
  obtain ⟨-, hnr, -, -⟩ := reachable_inv s hs
  have hkeys : (listDevices s).map DeviceListEntry.device_id =
      s.registeredDevices.map Prod.fst := by
    simp [listDevices, List.map_map]
  refine ⟨hkeys, ?_, ?_, ?_⟩
  · rw [hkeys]; exact hnr
  · intro id hnone e he heq
    obtain ⟨p, hp, rfl⟩ := List.mem_map.mp he
    apply (lookupKey_eq_none_iff s.registeredDevices id).mp hnone
    have hfst : p.1 = id := heq
    rw [← hfst]
    exact List.mem_map_of_mem Prod.fst hp
  · intro id dev hdev
    have hmem : (id, dev) ∈ s.registeredDevices := mem_of_lookupKey _ _ _ hdev
    exact ⟨_, List.mem_map_of_mem _ hmem, rfl, rfl, rfl, rfl, rfl, rfl, rfl, rfl⟩

/-- C8 amended witness at a concrete reachable two-device state with one
status record. -/
theorem C8_witness :
    (listDevices (runOps [Op.register 0 "ip" "d1", Op.register 1 "ip" "d2",
        Op.status 2 "ip2" "d1" (some "active") (some true) none])).map
      DeviceListEntry.device_id =
      (runOps [Op.register 0 "ip" "d1", Op.register 1 "ip" "d2",
        Op.status 2 "ip2" "d1" (some "active") (some true)
          none]).registeredDevices.map Prod.fst ∧
    ((listDevices (runOps [Op.register 0 "ip" "d1", Op.register 1 "ip" "d2",
        Op.status 2 "ip2" "d1" (some "active") (some true) none])).map
      DeviceListEntry.device_id).Nodup ∧
    (∀ id, lookupKey (runOps [Op.register 0 "ip" "d1", Op.register 1 "ip" "d2",
        Op.status 2 "ip2" "d1" (some "active") (some true)
          none]).registeredDevices id = none →
      ∀ e ∈ listDevices (runOps [Op.register 0 "ip" "d1",
        Op.register 1 "ip" "d2",
        Op.status 2 "ip2" "d1" (some "active") (some true) none]),
        ¬ e.device_id = id) ∧
    (∀ id dev, lookupKey (runOps [Op.register 0 "ip" "d1",
        Op.register 1 "ip" "d2",
        Op.status 2 "ip2" "d1" (some "active") (some true)
          none]).registeredDevices id = some dev →
      ∃ e ∈ listDevices (runOps [Op.register 0 "ip" "d1",
        Op.register 1 "ip" "d2",
        Op.status 2 "ip2" "d1" (some "active") (some true) none]),
        e.device_id = id ∧
        e.registered_at = dev.registered_at ∧
        e.last_seen = dev.last_seen ∧
        e.status = (match lookupKey (runOps [Op.register 0 "ip" "d1",
            Op.register 1 "ip" "d2",
            Op.status 2 "ip2" "d1" (some "active") (some true)
              none]).deviceStatus id with
          | some st => if st.status = "" then "unknown" else st.status
          | none => "unknown") ∧
        e.recording = (match lookupKey (runOps [Op.register 0 "ip" "d1",
            Op.register 1 "ip" "d2",
            Op.status 2 "ip2" "d1" (some "active") (some true)
              none]).deviceStatus id with
          | some st => st.recording
          | none => false) ∧
        e.screen_recording = (match lookupKey (runOps [Op.register 0 "ip" "d1",
            Op.register 1 "ip" "d2",
            Op.status 2 "ip2" "d1" (some "active") (some true)
              none]).deviceStatus id with
          | some st => st.screen_recording
          | none => false) ∧
        e.pending_commands = ((lookupKey (runOps [Op.register 0 "ip" "d1",
            Op.register 1 "ip" "d2",
            Op.status 2 "ip2" "d1" (some "active") (some true)
              none]).deviceCommands id).getD []).length ∧
        e.ip = (if dev.ip = "" then "unknown" else dev.ip)) :=
  C8_amended_listDevices
    (runOps [Op.register 0 "ip" "d1", Op.register 1 "ip" "d2",
      Op.status 2 "ip2" "d1" (some "active") (some true) none])
    ⟨[Op.register 0 "ip" "d1", Op.register 1 "ip" "d2",
      Op.status 2 "ip2" "d1" (some "active") (some true) none], rfl⟩

/-- C9: in every reachable state, clearCommands fails with DeviceNotFound
(HTTP 404) exactly when the id is not registered (devices are never
removed, so unregistered means never registered), and otherwise succeeds,
empties the device's pending queue and leaves the registry and status
stores unchanged. -/
theorem C9_clearCommands_spec (id : String) (s : ServerState)
    (hs : Reachable s) :
    (lookupKey s.registeredDevices id = none →
      clearCommands id s = (ClearResult.notFound, s)) ∧
    (∀ dev, lookupKey s.registeredDevices id = some dev →
      (clearCommands id s).1 = ClearResult.success ∧
      lookupKey (clearCommands id s).2.deviceCommands id = some [] ∧
      (clearCommands id s).2.registeredDevices = s.registeredDevices ∧
      (clearCommands id s).2.deviceStatus = s.deviceStatus) := by
  obtain ⟨hal, -, -, -⟩ := reachable_inv s hs
  constructor
  · intro hnone
    have hc : lookupKey s.deviceCommands id = none := by
      by_contra hne
      have h1 : (lookupKey s.deviceCommands id).isSome :=
        Option.ne_none_iff_isSome.mp hne
      have h2 := (hal id).mpr h1
      rw [hnone] at h2
      simp at h2
    simp [clearCommands, hc]
  · intro dev hdev
    have hc : (lookupKey s.deviceCommands id).isSome :=
      (hal id).mp (by simp [hdev])
    obtain ⟨q, hq⟩ := Option.isSome_iff_exists.mp hc
    refine ⟨?_, ?_, ?_, ?_⟩ <;> simp [clearCommands, hq, lookupKey_setKey]

/-- C9 witness at a concrete reachable state with a registered device
holding one pending command. -/
theorem C9_witness :
    (lookupKey (runOps [Op.register 0 "ip" "d1",
        Op.send "d1" "A"]).registeredDevices "d1" = none →
      clearCommands "d1" (runOps [Op.register 0 "ip" "d1",
        Op.send "d1" "A"]) =
        (ClearResult.notFound,
          runOps [Op.register 0 "ip" "d1", Op.send "d1" "A"])) ∧
    (∀ dev, lookupKey (runOps [Op.register 0 "ip" "d1",
        Op.send "d1" "A"]).registeredDevices "d1" = some dev →
      (clearCommands "d1" (runOps [Op.register 0 "ip" "d1",
        Op.send "d1" "A"])).1 = ClearResult.success ∧
      lookupKey (clearCommands "d1" (runOps [Op.register 0 "ip" "d1",
        Op.send "d1" "A"])).2.deviceCommands "d1" = some [] ∧
      (clearCommands "d1" (runOps [Op.register 0 "ip" "d1",
        Op.send "d1" "A"])).2.registeredDevices =
        (runOps [Op.register 0 "ip" "d1", Op.send "d1" "A"]).registeredDevices ∧
      (clearCommands "d1" (runOps [Op.register 0 "ip" "d1",
        Op.send "d1" "A"])).2.deviceStatus =
        (runOps [Op.register 0 "ip" "d1", Op.send "d1" "A"]).deviceStatus) :=
  C9_clearCommands_spec "d1" (runOps [Op.register 0 "ip" "d1",
    Op.send "d1" "A"]) ⟨[Op.register 0 "ip" "d1", Op.send "d1" "A"], rfl⟩

/-- C10: in every state reachable from the empty initial state by the
public operations, the key set of the command-queue map equals the key set
of the registered-device map: an id has a (possibly empty) queue entry
exactly when it is registered. -/
theorem C10_keys_aligned (s : ServerState) (hs : Reachable s) :
    ∀ id, (lookupKey s.registeredDevices id).isSome ↔
      (lookupKey s.deviceCommands id).isSome :=
  (reachable_inv s hs).1

/-- C10 witness at a concrete reachable state, for a registered and for an
unregistered id. -/
theorem C10_witness :
    ((lookupKey (runOps [Op.register 0 "ip" "d1",
        Op.clear "d1"]).registeredDevices "d1").isSome ↔
      (lookupKey (runOps [Op.register 0 "ip" "d1",
        Op.clear "d1"]).deviceCommands "d1").isSome) ∧
    ((lookupKey (runOps [Op.register 0 "ip" "d1",
        Op.clear "d1"]).registeredDevices "ghost").isSome ↔
      (lookupKey (runOps [Op.register 0 "ip" "d1",
        Op.clear "d1"]).deviceCommands "ghost").isSome) :=
  ⟨C10_keys_aligned (runOps [Op.register 0 "ip" "d1", Op.clear "d1"])
      ⟨[Op.register 0 "ip" "d1", Op.clear "d1"], rfl⟩ "d1",
    C10_keys_aligned (runOps [Op.register 0 "ip" "d1", Op.clear "d1"])
      ⟨[Op.register 0 "ip" "d1", Op.clear "d1"], rfl⟩ "ghost"⟩

end SukhServer
